import Mathlib

/-!
Verification development for the `profile_info` portfolio client.

Shallow embedding of the data-access layer (`src/services/githubService.ts`,
the later service variant in `src/unnamed/part_004`, the App shell in
`src/unnamed/part_000` and the card decoration in
`src/components/RepoCard.tsx`) together with theorems settling the frozen
claims about it.

Modelling conventions:
* `localStorage` under the single cache key is an `Option` holding the
  persisted value together with its `timestamp` field; JSON
  round-tripping is identity on these record shapes, and a decode failure
  is modelled as the slot being empty.
* Wall-clock times (`Date.now()`) are naturals counting milliseconds and
  are passed explicitly to each operation that reads the clock.
* Network fetches are inputs: each embedded operation takes the decoded
  outcome of the requests it would issue, so an operation that never
  consults the network simply has a result independent of those inputs.
* `Math.random()` (used by `part_004` to make up ids for GraphQL pinned
  repositories) is an externally supplied draw; the JS value is a float in
  the unit interval, modelled as an arbitrary natural per draw - only
  whether two passes receive the same draw matters to the claims.
-/

/-- `GitHubUser` from `src/unnamed/part_006` (types.ts). -/
structure GitHubUser where
  id : Nat
  login : String
  avatar_url : String
  html_url : String
  name : String
  bio : String
  public_repos : Nat
  followers : Nat
  following : Nat
  created_at : String
deriving DecidableEq

/-- `GitHubRepo` from `src/unnamed/part_006` (types.ts). -/
structure GitHubRepo where
  id : Nat
  name : String
  full_name : String
  html_url : String
  description : Option String
  language : Option String
  stargazers_count : Nat
  forks_count : Nat
  updated_at : String
  topics : List String
  clone_url : String
  default_branch : String
  repoImage : Option String
deriving DecidableEq

/-- `CoffeeStats` from `src/unnamed/part_006` (types.ts); `accountAgeDays`
is an `Int` because `Math.floor` of a negative difference is negative. -/
structure CoffeeStats where
  totalStars : Nat
  totalForks : Nat
  topLanguages : List (String × Nat)
  mostStarredRepo : String
  accountAgeDays : Int
  brewStrength : String
deriving DecidableEq

/-- The `PortfolioData` shape of `src/services/githubService.ts` (the `v2`
service) without its `timestamp` field; the timestamp is carried
separately wherever the code stores or returns it. -/
structure PortfolioCore where
  user : GitHubUser
  repos : List GitHubRepo
  pinnedRepos : List GitHubRepo
  followers : List GitHubUser
deriving DecidableEq

/-- The `PortfolioData` shape of `src/unnamed/part_004` (the `v4` service)
without its `timestamp` field. `tags` is the entry list of the
`Record<string, string>` built by `Object.fromEntries`. -/
structure PortfolioV4 where
  user : GitHubUser
  repos : List GitHubRepo
  pinnedRepos : List GitHubRepo
  followers : List GitHubUser
  tags : List (String × String)
  stats : CoffeeStats
deriving DecidableEq

/-- Errors thrown by the `v2` service helpers: `RateLimitError` with its
`resetTime` (epoch seconds), or the generic `Error` carrying
`statusText`. -/
inductive JsError where
  | rateLimited (resetTime : Nat)
  | generic (msg : String)
deriving DecidableEq

/-- Errors surfaced by the `v4` service `getPortfolioData`:
`RateLimitError` (carrying `resetTime`) or the `Error` thrown when the
user payload is missing. -/
inductive V4Error where
  | rateLimited (resetTime : Nat)
  | userFetchFailed
deriving DecidableEq

/-- An HTTP response as far as the services inspect it: the status code,
`statusText`, and the `x-ratelimit-reset` header already parsed
(`none` when the header is absent, empty or unparseable, matching the
falsy/`NaN` handling of `parseInt` plus the `resetHeader ?` guard). -/
structure HttpResponse where
  status : Nat
  statusText : String
  rateLimitReset : Option Nat
deriving DecidableEq

/-- `Response.ok`: status in the 200-299 range. -/
abbrev respOk (r : HttpResponse) : Prop := 200 ≤ r.status ∧ r.status ≤ 299

/-- `handleResponse` of `src/services/githubService.ts` (same code in
`src/unnamed/part_005`): on a non-ok response, throw `RateLimitError`
for 403/429 - the reset time is the parsed header, else
`Math.floor(Date.now() / 1000) + 3600` - and a generic error otherwise.
`body` is the decoded `response.json()` payload. -/
def handleResponse_v2 {α : Type} (resp : HttpResponse) (body : α) (nowMs : Nat) :
    Except JsError α :=
  if respOk resp then .ok body
  else if resp.status = 403 ∨ resp.status = 429 then
    .error (.rateLimited (resp.rateLimitReset.getD (nowMs / 1000 + 3600)))
  else .error (.generic resp.statusText)

/-- `handleResponse` of `src/unnamed/part_004`: identical rate-limit
classification, but a non-ok, non-rate-limited response yields `null`
(`Except.ok none`) instead of throwing. The error payload is the
`resetTime` of the thrown `RateLimitError`. -/
def handleResponse_v4 {α : Type} (resp : HttpResponse) (body : α) (nowMs : Nat) :
    Except Nat (Option α) :=
  if respOk resp then .ok (some body)
  else if resp.status = 403 ∨ resp.status = 429 then
    .error (resp.rateLimitReset.getD (nowMs / 1000 + 3600))
  else .ok none

/-- `CACHE_TTL` (60 minutes in milliseconds), shared by both service
variants. -/
def CACHE_TTL : Nat := 60 * 60 * 1000

/-- The single `localStorage` slot under the cache key: absent, or a
payload together with the `timestamp` it was stored with. -/
abbrev CacheSlot (α : Type) : Type := Option (α × Nat)

/-- `setCache`: persist unconditionally, overwriting any prior value and
stamping `timestamp: Date.now()`. (The storage-quota `catch` merely
swallows the exception; a store that silently fails is modelled by the
caller keeping the old slot, which no claim exercises.) -/
def setCache {α : Type} (data : α) (nowMs : Nat) : CacheSlot α :=
  some (data, nowMs)

/-- `getCache` of `src/services/githubService.ts`: a fresh entry is
returned as-is; an expired entry (`now - timestamp > CACHE_TTL`) is
REMOVED from storage (`localStorage.removeItem`) and `null` is returned.
Returns the read result together with the slot as the call leaves it. -/
def getCache_v2 {α : Type} (nowMs : Nat) (slot : CacheSlot α) :
    Option (α × Nat) × CacheSlot α :=
  match slot with
  | none => (none, none)
  | some (d, ts) =>
    if nowMs - ts > CACHE_TTL then (none, none) else (some (d, ts), some (d, ts))

/-- `getCache` of `src/unnamed/part_004`: same freshness test, but an
expired entry is left in place (no `removeItem`). -/
def getCache_v4 {α : Type} (nowMs : Nat) (slot : CacheSlot α) : Option (α × Nat) :=
  match slot with
  | none => none
  | some (d, ts) =>
    if nowMs - ts > CACHE_TTL then none else some (d, ts)

/-- The forced stale read: `localStorage.getItem(CACHE_KEY)` followed by
`JSON.parse`, with no freshness test (the rate-limit fallback inside
`getPortfolioData`). -/
def readStale {α : Type} (slot : CacheSlot α) : Option (α × Nat) := slot

/-- A stable sort: `Array.prototype.sort` with a consistent comparator is
stable (TimSort), and a stable sort is determined by its comparator, so
an insertion sort inserting each earlier element in front of later
equal-ranked ones reproduces it. `le a b` means a may stay before b. -/
def orderedInsertBy {α : Type} (le : α → α → Bool) (x : α) : List α → List α
  | [] => [x]
  | y :: ys => if le x y then x :: y :: ys else y :: orderedInsertBy le x ys

/-- Stable sort by repeated ordered insertion (see `orderedInsertBy`). -/
def stableSortBy {α : Type} (le : α → α → Bool) (l : List α) : List α :=
  l.foldr (orderedInsertBy le) []

/-- `[...repos].sort((a, b) => (b.stargazers_count || 0) - (a.stargazers_count || 0))`:
stars descending, ties keeping original order. -/
def sortByStarsDesc (repos : List GitHubRepo) : List GitHubRepo :=
  stableSortBy (fun a b => decide (b.stargazers_count ≤ a.stargazers_count)) repos

/-- One step of the language histogram: JS object insertion-order update
`langs[l] = (langs[l] || 0) + 1`. -/
def insertCount : List (String × Nat) → String → List (String × Nat)
  | [], l => [(l, 1)]
  | (k, c) :: rest, l =>
    if k = l then (k, c + 1) :: rest else (k, c) :: insertCount rest l

/-- The language histogram of `calculateStats`; `if (r.language)` skips
both `null` and the falsy empty string. -/
def langCounts (repos : List GitHubRepo) : List (String × Nat) :=
  repos.foldl
    (fun acc r =>
      match r.language with
      | none => acc
      | some l => if l = "" then acc else insertCount acc l)
    []

/-- `calculateStats` of `src/unnamed/part_004`. `parseDate` stands for
`new Date(s).getTime()` (epoch milliseconds); the `user.created_at ||
Date.now()` guard maps an empty string to the current time. -/
def calculateStats (parseDate : String → Int) (nowMs : Nat)
    (user : GitHubUser) (repos : List GitHubRepo) : CoffeeStats :=
  let totalStars := repos.foldl (fun acc r => acc + r.stargazers_count) 0
  let totalForks := repos.foldl (fun acc r => acc + r.forks_count) 0
  let topLanguages := (stableSortBy (fun a b => decide (b.2 ≤ a.2)) (langCounts repos)).take 5
  let mostStarredRepo :=
    match sortByStarsDesc repos with
    | [] => "N/A"
    | r :: _ => r.name
  let created := if user.created_at = "" then (nowMs : Int) else parseDate user.created_at
  let accountAgeDays := ((nowMs : Int) - created).fdiv 86400000
  let brewStrength :=
    if totalStars > 500 then "Double Espresso"
    else if totalStars > 100 then "Ristretto" else "Mild Roast"
  { totalStars := totalStars, totalForks := totalForks, topLanguages := topLanguages,
    mostStarredRepo := mostStarredRepo, accountAgeDays := accountAgeDays,
    brewStrength := brewStrength }

/-- A node of the GraphQL `pinnedItems` answer, as destructured by
`fetchPinnedReposGraphQL` in `src/unnamed/part_004`. -/
structure PinnedNode where
  name : String
  description : Option String
  url : String
  stargazerCount : Nat
  forkCount : Nat
  primaryLanguage : Option String
  openGraphImageUrl : String
  defaultBranchRef : Option String
  topics : List String
deriving DecidableEq

/-- The per-node mapping inside `fetchPinnedReposGraphQL`
(`src/unnamed/part_004`): `id: Math.random()` is the externally supplied
draw `rnd`, `updated_at: new Date().toISOString()` is `nowIso`. -/
def mapPinnedNode (rnd : Nat) (nowIso : String) (node : PinnedNode) : GitHubRepo :=
  { id := rnd
    name := node.name
    full_name := "pro-grammer-SD/" ++ node.name
    html_url := node.url
    description := node.description
    language := node.primaryLanguage
    stargazers_count := node.stargazerCount
    forks_count := node.forkCount
    updated_at := nowIso
    topics := node.topics
    clone_url := node.url ++ ".git"
    default_branch := node.defaultBranchRef.getD "main"
    repoImage := some node.openGraphImageUrl }

/-- `fetchPinnedReposGraphQL` of `src/unnamed/part_004`. `resp` is the
decoded outcome of `handleResponse` on the GraphQL call: a thrown
`RateLimitError` is caught by the surrounding `try` and yields `[]`;
`ok none` covers both a `null` `handleResponse` result and a missing
`result.data.user`; otherwise each node is mapped with its own
`Math.random()` draw `draw i`. -/
def fetchPinnedReposGraphQL (resp : Except Nat (Option (List PinnedNode)))
    (draw : Nat → Nat) (nowIso : String) : List GitHubRepo :=
  match resp with
  | .error _ => []
  | .ok none => []
  | .ok (some nodes) => nodes.mapIdx (fun i n => mapPinnedNode (draw i) nowIso n)

/-- An item of the third-party pinned-repo proxy answer, as destructured
by `fetchPinnedRepos` in `src/services/githubService.ts`. `stars` and
`forks` are the `parseInt` results, `none` when `NaN`. -/
structure PinProxyItem where
  owner : String
  repo : String
  link : String
  description : Option String
  language : Option String
  stars : Option Nat
  forks : Option Nat
deriving DecidableEq

/-- The per-item mapping inside `fetchPinnedRepos`
(`src/services/githubService.ts`): the synthetic id is `999000 + index`,
`parseInt(...) || 0` defaults to 0. -/
def mapPinProxy (nowIso : String) (index : Nat) (pin : PinProxyItem) : GitHubRepo :=
  { id := 999000 + index
    name := pin.repo
    full_name := pin.owner ++ "/" ++ pin.repo
    html_url := pin.link
    description := pin.description
    language := pin.language
    stargazers_count := pin.stars.getD 0
    forks_count := pin.forks.getD 0
    updated_at := nowIso
    topics := []
    clone_url := "https://github.com/" ++ pin.owner ++ "/" ++ pin.repo ++ ".git"
    default_branch := "main"
    repoImage := none }

/-- `Array.from(new Set(l))`: duplicates removed, first occurrence kept,
insertion order preserved. -/
def dedupKeepFirst (l : List String) : List String :=
  l.foldl (fun acc b => if acc.contains b then acc else acc ++ [b]) []

/-- The branch loop of `fetchReadme`: try each candidate in order,
returning the first successful body together with the branch it was
found on. `fetchB b` is the outcome of fetching the raw README URL for
branch `b` (`none` for a non-ok response or a thrown network error, both
of which `continue`). -/
def tryBranches (fetchB : String → Option String) : List String → Option (String × String)
  | [] => none
  | b :: rest =>
    match fetchB b with
    | some content => some (content, b)
    | none => tryBranches fetchB rest

/-- `fetchReadme` of `src/services/githubService.ts`: candidate branches
are the declared initial branch, then `master`, then `main`, deduplicated
keeping preference order; all candidates failing yields `null`. -/
def fetchReadme (initialBranch : String) (fetchB : String → Option String) :
    Option (String × String) :=
  tryBranches fetchB (dedupKeepFirst [initialBranch, "master", "main"])

/-- `repo.description && repo.description.length > 50` (a `null` or empty
description is falsy; the empty string fails the length test anyway). -/
def longDescription (repo : GitHubRepo) : Bool :=
  match repo.description with
  | some d => decide (d.length > 50)
  | none => false

/-- `repo.topics && repo.topics.length > 0`. -/
def hasTopics (repo : GitHubRepo) : Bool :=
  decide (repo.topics.length > 0)

/-- The five description-template pools of `analyzeRepo`
(`src/services/githubService.ts`), parameterized by the language. -/
def descriptions (lang : String) : List (List String) :=
  [ [ "A delicate " ++ lang ++ " brew with subtle notes.",
      "Light and airy " ++ lang ++ " project.",
      "Freshly ground " ++ lang ++ " concepts." ],
    [ "A balanced " ++ lang ++ " blend.",
      "Medium-bodied " ++ lang ++ " architecture.",
      "Classic " ++ lang ++ " flavor profile." ],
    [ "Bold " ++ lang ++ " flavors.",
      "Deep-roasted " ++ lang ++ " logic.",
      "A robust " ++ lang ++ " creation." ],
    [ "Intense " ++ lang ++ " energy.",
      "Concentrated " ++ lang ++ " power.",
      "High-caffeine " ++ lang ++ " solution." ],
    [ "The Master\x27s Reserve: Premium " ++ lang ++ ".",
      "Award-winning " ++ lang ++ " profile.",
      "The ultimate " ++ lang ++ " experience." ] ]

/-- `analyzeRepo` of `src/services/githubService.ts` (the five-tier
variant, same scoring as `src/unnamed/part_005`): score with bonuses,
the `if`/`else if` tier chain, then
`tierDescs[repo.id % tierDescs.length]`. -/
def analyzeRepo (repo : GitHubRepo) : String × String :=
  let lang := repo.language.getD "Unknown"
  let stars := repo.stargazers_count
  let forks := repo.forks_count
  let score := stars * 3 + forks * 2
  let score := if longDescription repo then score + 5 else score
  let score := if hasTopics repo then score + 5 else score
  let tier : String × Nat :=
    if score < 5 then ("Light Roast", 0)
    else if 5 ≤ score ∧ score < 20 then ("Medium Roast", 1)
    else if 20 ≤ score ∧ score < 50 then ("Dark Roast", 2)
    else if 50 ≤ score ∧ score < 100 then ("Espresso Blend", 3)
    else ("Double Shot Signature", 4)
  let tierDescs := (descriptions lang).getD tier.2 []
  (tier.1, tierDescs.getD (repo.id % tierDescs.length) "")

/-- `seed = (seed * 9301 + 49297) % 233280`, the LCG step of the activity
bars in `src/components/RepoCard.tsx`. -/
def lcgNext (seed : Nat) : Nat := (seed * 9301 + 49297) % 233280

/-- The activity-bar loop body iterated `n` times from `seed`:
`height = 20 + floor((seed / 233280) * 80)` (exact rational floor; the
JS double rounding can differ only at exact-multiple boundaries, which
no claim depends on) and the 3/2/1 intensity bucketing. -/
def activityBarsAux : Nat → Nat → List (Nat × Nat)
  | 0, _ => []
  | n + 1, seed =>
    let seed2 := lcgNext seed
    let height := 20 + seed2 * 80 / 233280
    let intensity := if height > 80 then 3 else if height > 50 then 2 else 1
    (height, intensity) :: activityBarsAux n seed2

/-- `activityBars` of `src/components/RepoCard.tsx`: 14 bars generated
from the LCG seeded with `repo.id`. -/
def activityBars (repoId : Nat) : List (Nat × Nat) := activityBarsAux 14 repoId

/-- `getPortfolioData` of `src/services/githubService.ts`: fresh-cache
check (unless forced), the CI/CD static-snapshot attempt (`staticSnap`
is its decoded outcome, `none` when missing or non-ok), then the joined
network fetch; on a `RateLimitError` the stale cache is served if
present, any other error propagates. The result pairs the returned
value (payload with its timestamp) with the slot as the call leaves
it. -/
def getPortfolioData_v2 (forceRefresh : Bool) (slot : CacheSlot PortfolioCore)
    (staticSnap : Option (PortfolioCore × Nat))
    (fetchResult : Except JsError PortfolioCore) (nowMs : Nat) :
    Except JsError (PortfolioCore × Nat) × CacheSlot PortfolioCore :=
  match (if forceRefresh then (none, slot) else getCache_v2 nowMs slot) with
  | (some cached, slot1) => (.ok cached, slot1)
  | (none, slot1) =>
    match staticSnap with
    | some d => (.ok d, setCache d.1 nowMs)
    | none =>
      match fetchResult with
      | .ok core => (.ok (core, nowMs), setCache core nowMs)
      | .error e =>
        match e, readStale slot1 with
        | .rateLimited _, some stale => (.ok stale, slot1)
        | _, _ => (.error e, slot1)

/-- `Object.fromEntries`: later entries overwrite earlier values, key
order is first-insertion order. -/
def setEntry : List (String × String) → String × String → List (String × String)
  | [], e => [e]
  | (k, v) :: rest, e =>
    if k = e.1 then (k, e.2) :: rest else (k, v) :: setEntry rest e

/-- Fold `setEntry` over an entry list (`Object.fromEntries`). -/
def fromEntries (l : List (String × String)) : List (String × String) :=
  l.foldl setEntry []

/-- The snapshot-assembly tail of `getPortfolioData` in
`src/unnamed/part_004`: pinned fallback to the top-6 by stars, tag
enrichment of `finalPinned ++ repos.slice(0, 5)` keeping only truthy
tags (`fetchTags` already maps failures and empty names to `null`),
stats, and the assembled `PortfolioData` (sans timestamp). -/
def assembleV4 (user : GitHubUser) (repos : List GitHubRepo)
    (followers : List GitHubUser) (pinned : List GitHubRepo)
    (tagsFor : String → Option String) (parseDate : String → Int)
    (nowMs : Nat) : PortfolioV4 :=
  let finalPinned :=
    if pinned.length > 0 then pinned else (sortByStarsDesc repos).take 6
  let reposToTag := finalPinned ++ repos.take 5
  let tagEntries := reposToTag.map (fun r => (r.name, tagsFor r.name))
  let tags := fromEntries (tagEntries.filterMap (fun e => e.2.map (fun t => (e.1, t))))
  let stats := calculateStats parseDate nowMs user repos
  { user := user, repos := repos, pinnedRepos := finalPinned,
    followers := followers, tags := tags, stats := stats }

/-- `getPortfolioData` of `src/unnamed/part_004`: fresh-cache check
(unless forced), then the four concurrent fetches. `userResp`,
`reposResp` and `followersResp` are the `handleResponse` outcomes of the
three REST calls (`Except.error` is a thrown `RateLimitError` carrying
its reset time; `Promise.all` then rejects - modelled by array order,
the pinned promise never rejecting). A `null` user payload throws; null
repos/followers default to `[]`. On success the snapshot is assembled,
persisted, and returned with `timestamp: Date.now()`. -/
def getPortfolioData_v4 (forceRefresh : Bool) (slot : CacheSlot PortfolioV4)
    (userResp : Except Nat (Option GitHubUser))
    (reposResp : Except Nat (Option (List GitHubRepo)))
    (followersResp : Except Nat (Option (List GitHubUser)))
    (pinned : List GitHubRepo) (tagsFor : String → Option String)
    (parseDate : String → Int) (nowMs : Nat) :
    Except V4Error (PortfolioV4 × Nat) × CacheSlot PortfolioV4 :=
  match (if forceRefresh then none else getCache_v4 nowMs slot) with
  | some cached => (.ok cached, slot)
  | none =>
    match userResp, reposResp, followersResp with
    | .error r, _, _ => (.error (.rateLimited r), slot)
    | _, .error r, _ => (.error (.rateLimited r), slot)
    | _, _, .error r => (.error (.rateLimited r), slot)
    | .ok userData, .ok reposData, .ok followersData =>
      match userData with
      | none => (.error .userFetchFailed, slot)
      | some user =>
        let d := assembleV4 user (reposData.getD []) (followersData.getD [])
          pinned tagsFor parseDate nowMs
        (.ok (d, nowMs), setCache d nowMs)

/-- The countdown `updateTimer` of `src/unnamed/part_000`:
`diff = rateLimitReset * 1000 - Date.now()`; non-positive shows the
fixed ready label, otherwise zero-padded `hh:mm:ss` from the millisecond
remainder chain. -/
def pad2 (n : Nat) : String :=
  if n < 10 then "0" ++ toString n else toString n

/-- See `pad2`; `rateLimitReset` is epoch seconds, `nowMs` epoch
milliseconds. -/
def updateTimer (rateLimitReset : Nat) (nowMs : Nat) : String :=
  let diff : Int := (rateLimitReset : Int) * 1000 - (nowMs : Int)
  if diff ≤ 0 then "Ready to brew!"
  else
    let d := diff.toNat
    let h := d / (1000 * 60 * 60)
    let m := d % (1000 * 60 * 60) / (1000 * 60)
    let s := d % (1000 * 60) / 1000
    pad2 h ++ ":" ++ pad2 m ++ ":" ++ pad2 s

/-- The view state touched by `loadFromCache` in `src/unnamed/part_000`. -/
structure ViewState where
  user : Option GitHubUser
  repos : List GitHubRepo
  pinnedRepos : List GitHubRepo
  followers : List GitHubUser
  usingCachedData : Bool
  error : Option String
deriving DecidableEq

/-- `loadFromCache` of `src/unnamed/part_000` (invoked by
`handleProceedWithCache`): a pure read of the stored snapshot - no fetch
is involved - populating the view state and clearing the blocking error;
an absent (or unparseable, modelled as absent) entry reports failure and
leaves the state alone. -/
def loadFromCache (stored : Option (PortfolioCore × Nat)) (st : ViewState) :
    Bool × ViewState :=
  match stored with
  | some (d, _) =>
    (true,
      { st with user := some d.user, repos := d.repos, pinnedRepos := d.pinnedRepos,
                followers := d.followers, usingCachedData := true, error := none })
  | none => (false, st)

/-- Claim-side score formula (C3 wording): `3*stars + 2*forks`, `+5` for a
description longer than 50 characters, `+5` when at least one topic is
present. -/
def claimScore (repo : GitHubRepo) : Nat :=
  3 * repo.stargazers_count + 2 * repo.forks_count
    + (if longDescription repo then 5 else 0)
    + (if hasTopics repo then 5 else 0)

/-- Claim-side tier index from the ascending thresholds `< 5`, `< 20`,
`< 50`, `< 100`, else top tier. -/
def claimTier (score : Nat) : Nat :=
  if score < 5 then 0
  else if score < 20 then 1
  else if score < 50 then 2
  else if score < 100 then 3
  else 4

/-- Claim-side tier labels, in ascending order. -/
def claimRoast (score : Nat) : String :=
  [ "Light Roast", "Medium Roast", "Dark Roast", "Espresso Blend",
    "Double Shot Signature" ].getD (claimTier score) ""

/-- Claim-side template pool of the tier selected for `score`. -/
def claimPool (score : Nat) (lang : String) : List String :=
  (descriptions lang).getD (claimTier score) []

/-- Sample user for concrete witnesses. -/
def sampleUser : GitHubUser :=
  { id := 1, login := "pro-grammer-SD", avatar_url := "a", html_url := "h",
    name := "SD", bio := "b", public_repos := 1, followers := 2, following := 3,
    created_at := "2020-01-01T00:00:00Z" }

/-- Sample repository for concrete witnesses. -/
def sampleRepo : GitHubRepo :=
  { id := 7, name := "demo", full_name := "pro-grammer-SD/demo", html_url := "u",
    description := some "d", language := some "TypeScript", stargazers_count := 3,
    forks_count := 1, updated_at := "t", topics := [], clone_url := "c",
    default_branch := "main", repoImage := none }

/-- Second sample repository (more stars) for sorting witnesses. -/
def sampleRepo2 : GitHubRepo :=
  { id := 8, name := "hot", full_name := "pro-grammer-SD/hot", html_url := "u2",
    description := none, language := some "Python", stargazers_count := 9,
    forks_count := 0, updated_at := "t2", topics := ["web"], clone_url := "c2",
    default_branch := "main", repoImage := none }

/-- Sample `v2` snapshot core for concrete witnesses. -/
def sampleCore : PortfolioCore :=
  { user := sampleUser, repos := [sampleRepo, sampleRepo2],
    pinnedRepos := [sampleRepo2], followers := [sampleUser] }

/-- Sample `v4` snapshot for concrete witnesses. -/
def sampleV4 : PortfolioV4 :=
  assembleV4 sampleUser [sampleRepo, sampleRepo2] [sampleUser] [sampleRepo2]
    (fun _ => none) (fun _ => 0) 0

/-- Sample GraphQL pinned node for concrete witnesses. -/
def sampleNode : PinnedNode :=
  { name := "demo", description := some "d", url := "https://x",
    stargazerCount := 3, forkCount := 1, primaryLanguage := some "TS",
    openGraphImageUrl := "img", defaultBranchRef := some "main",
    topics := ["web"] }

/-- Sample view state for concrete witnesses. -/
def sampleView : ViewState :=
  { user := none, repos := [], pinnedRepos := [], followers := [],
    usingCachedData := false, error := some "Out of Coffee Beans" }

/-! ## Theorems -/

/-- Any fresh `getCache` read made while the entry is within its TTL
leaves the `v2` slot untouched. -/
theorem getCache_v2_fresh_preserves {α : Type} (d : α) (ts t : Nat)
    (h : t - ts ≤ CACHE_TTL) :
    (getCache_v2 t (some (d, ts))).2 = some (d, ts) := by
  simp only [getCache_v2]
  rw [if_neg (by omega)]

/-- Claim C1 (amended). After `write(S)` at time `ts`, `readStale()`
returns a value structurally equal to S regardless of how much time has
elapsed and regardless of any intervening fresh `read()` calls, PROVIDED
every such intervening `read()` happens while the entry is still within
its TTL; the original claim fails because a fresh `read()` performed
after the TTL has elapsed removes the cache slot (see the
counterexample). -/
theorem C1_readStale_after_write (S : PortfolioCore) (ts : Nat)
    (reads : List Nat) (h : ∀ t ∈ reads, t - ts ≤ CACHE_TTL) :
    readStale (reads.foldl (fun sl t => (getCache_v2 t sl).2) (setCache S ts))
      = some (S, ts) := by
  induction reads with
  | nil => rfl
  | cons t rest ih =>
    simp only [List.foldl_cons, setCache] at ih ⊢
    rw [getCache_v2_fresh_preserves S ts t (h t (by simp))]
    exact ih (fun t' h' => h t' (by simp [h']))

/-- Witness for C1: a write at time 0 followed by fresh reads at times 10
and `CACHE_TTL` still leaves the snapshot retrievable via `readStale`. -/
theorem C1_readStale_after_write_witness :
    readStale ([10, CACHE_TTL].foldl (fun sl t => (getCache_v2 t sl).2)
      (setCache sampleCore 0)) = some (sampleCore, 0) :=
  C1_readStale_after_write sampleCore 0 [10, CACHE_TTL] (by decide)

/-- Counterexample to C1 as stated: write the snapshot at time 0, let the
TTL elapse, and make one intervening fresh `read()` call (at
`CACHE_TTL + 1`); the expired entry is deleted by that read, so the
subsequent `readStale()` returns nothing instead of a value structurally
equal to the snapshot. -/
theorem C1_counterexample :
    readStale ((getCache_v2 (CACHE_TTL + 1) (setCache sampleCore 0)).2) = none
      ∧ readStale ((getCache_v2 (CACHE_TTL + 1) (setCache sampleCore 0)).2)
          ≠ some (sampleCore, 0) := by
  constructor
  · rfl
  · intro h
    simp only [readStale, setCache, getCache_v2] at h
    rw [if_pos (by norm_num [CACHE_TTL])] at h
    exact Option.noConfusion h

/-- Claim C4 (amended). When `getPortfolioData` runs an actual network
pass with the fresh-cache check bypassed (`forceRefresh = true`) and no
static snapshot: a `RateLimitError` with any previously cached snapshot
present - even an arbitrarily old one - yields that stale snapshot; a
rate-limit failure with an empty slot propagates the rate-limit error; a
non-rate-limit failure propagates without consulting the stale cache;
and the view-side `loadFromCache` then loads a stored snapshot purely
from storage (it takes no network input at all). Under
`forceRefresh = false` the fallback never fires: a fresh entry is
returned before the pass and an expired one is deleted by the freshness
check (see the counterexample). -/
theorem C4_rate_limit_stale_fallback (d : PortfolioCore) (ts : Nat)
    (slot : CacheSlot PortfolioCore) (r : Nat) (msg : String) (nowMs : Nat)
    (st : ViewState) :
    (getPortfolioData_v2 true (some (d, ts)) none (.error (.rateLimited r)) nowMs
        = (.ok (d, ts), some (d, ts)))
    ∧ (getPortfolioData_v2 true none none (.error (.rateLimited r)) nowMs
        = (.error (.rateLimited r), none))
    ∧ (getPortfolioData_v2 true slot none (.error (.generic msg)) nowMs
        = (.error (.generic msg), slot))
    ∧ loadFromCache (some (d, ts)) st
        = (true, { st with user := some d.user, repos := d.repos,
                           pinnedRepos := d.pinnedRepos, followers := d.followers,
                           usingCachedData := true, error := none }) := by
  refine ⟨rfl, rfl, ?_, rfl⟩
  cases slot with
  | none => rfl
  | some p => rfl

/-- Counterexample to C4 as stated: an expired snapshot is present under
the storage key when `getPortfolioData(false)` is called, the static
snapshot is absent, and the aggregation pass fails with a
`RateLimitError`; the initial freshness check has already deleted the
expired entry, so the call propagates the rate-limit error (and empties
the slot) instead of returning the stale snapshot. -/
theorem C4_counterexample :
    getPortfolioData_v2 false (some (sampleCore, 0)) none
        (.error (.rateLimited 42)) (CACHE_TTL + 1)
      = (.error (.rateLimited 42), none) := by
  simp only [getPortfolioData_v2, getCache_v2, Bool.false_eq_true, if_false]
  rw [if_pos (by norm_num [CACHE_TTL])]
  rfl

/-- Claim C5. A snapshot written at `ts` is returned by the fresh `read()`
at any time with `now - ts < TTL` and is not returned once the TTL has
elapsed (`now - ts > TTL`); and whenever the fresh-cache check hits,
`getPortfolioData(false)` returns the cached value - with the slot
untouched - for EVERY possible outcome of the network fetches, i.e.
without any network access. -/
theorem C5_fresh_read_ttl (S : PortfolioV4) (ts nowMs : Nat)
    (slot : CacheSlot PortfolioV4) :
    (nowMs - ts < CACHE_TTL → getCache_v4 nowMs (setCache S ts) = some (S, ts))
    ∧ (CACHE_TTL < nowMs - ts → getCache_v4 nowMs (setCache S ts) = none)
    ∧ (∀ c, getCache_v4 nowMs slot = some c →
        ∀ userResp reposResp followersResp pinned tagsFor parseDate,
          getPortfolioData_v4 false slot userResp reposResp followersResp
              pinned tagsFor parseDate nowMs
            = (.ok c, slot)) := by
  refine ⟨?_, ?_, ?_⟩
  · intro h
    simp only [setCache, getCache_v4]
    rw [if_neg (by omega)]
  · intro h
    simp only [setCache, getCache_v4]
    rw [if_pos (by omega)]
  · intro c hc userResp reposResp followersResp pinned tagsFor parseDate
    simp [getPortfolioData_v4, hc]

/-- Witness for C5: at time 10 the snapshot written at time 0 is fresh and
served, at time `2 * CACHE_TTL + 1` it is expired, and a fresh hit makes
`getPortfolioData` return it unchanged. -/
theorem C5_fresh_read_ttl_witness :
    getCache_v4 10 (setCache sampleV4 0) = some (sampleV4, 0)
    ∧ getCache_v4 (2 * CACHE_TTL + 1) (setCache sampleV4 0) = none
    ∧ getPortfolioData_v4 false (setCache sampleV4 0) (.error 9) (.error 9)
        (.error 9) [] (fun _ => none) (fun _ => 0) 10
      = (.ok (sampleV4, 0), setCache sampleV4 0) :=
  ⟨(C5_fresh_read_ttl sampleV4 0 10 none).1 (by norm_num [CACHE_TTL]),
   (C5_fresh_read_ttl sampleV4 0 (2 * CACHE_TTL + 1) none).2.1
     (by norm_num [CACHE_TTL]),
   (C5_fresh_read_ttl sampleV4 0 10 (setCache sampleV4 0)).2.2 (sampleV4, 0)
     (by simp [setCache, getCache_v4, CACHE_TTL]) (.error 9) (.error 9)
     (.error 9) [] (fun _ => none) (fun _ => 0)⟩

/-- Claim C7. Both `handleResponse` variants raise a rate-limit error
exactly when the response status is 403 or 429, and the error carries
the parsed `x-ratelimit-reset` header when present, else
`floor(now / 1000) + 3600` epoch seconds. -/
theorem C7_rate_limit_classification {α : Type} (resp : HttpResponse)
    (body : α) (nowMs : Nat) :
    ((resp.status = 403 ∨ resp.status = 429) →
      handleResponse_v2 resp body nowMs
          = .error (.rateLimited (resp.rateLimitReset.getD (nowMs / 1000 + 3600)))
      ∧ handleResponse_v4 resp body nowMs
          = .error (resp.rateLimitReset.getD (nowMs / 1000 + 3600)))
    ∧ (resp.status ≠ 403 → resp.status ≠ 429 →
      (∀ t, handleResponse_v2 resp body nowMs ≠ .error (.rateLimited t))
      ∧ (∀ t, handleResponse_v4 resp body nowMs ≠ .error t)) := by
  constructor
  · intro h
    have hok : ¬ respOk resp := by rcases h with h | h <;> simp [respOk, h]
    constructor
    · simp only [handleResponse_v2]
      rw [if_neg hok, if_pos h]
    · simp only [handleResponse_v4]
      rw [if_neg hok, if_pos h]
  · intro h403 h429
    have hrl : ¬ (resp.status = 403 ∨ resp.status = 429) := by
      rintro (h | h) <;> [exact h403 h; exact h429 h]
    constructor
    · intro t
      simp only [handleResponse_v2]
      by_cases hok : respOk resp
      · rw [if_pos hok]; exact fun h => Except.noConfusion h
      · rw [if_neg hok, if_neg hrl]
        intro h
        exact JsError.noConfusion (Except.error.inj h)
    · intro t
      simp only [handleResponse_v4]
      by_cases hok : respOk resp
      · rw [if_pos hok]; exact fun h => Except.noConfusion h
      · rw [if_neg hok, if_neg hrl]
        exact fun h => Except.noConfusion h

/-- Witness for C7: a 403 without the reset header at `now = 5000` ms
produces a rate-limit error with the one-hour fallback
`5000 / 1000 + 3600 = 3605`, and a 429 with header 777 carries 777;
a 500 never produces a rate-limit error. -/
theorem C7_rate_limit_classification_witness :
    handleResponse_v2 ⟨403, "Forbidden", none⟩ (0 : Nat) 5000
        = .error (.rateLimited 3605)
    ∧ handleResponse_v4 ⟨429, "Too Many Requests", some 777⟩ (0 : Nat) 5000
        = .error 777
    ∧ ∀ t, handleResponse_v2 ⟨500, "Server Error", none⟩ (0 : Nat) 5000
        ≠ .error (.rateLimited t) :=
  ⟨((C7_rate_limit_classification ⟨403, "Forbidden", none⟩ (0 : Nat) 5000).1
      (Or.inl rfl)).1,
   ((C7_rate_limit_classification ⟨429, "Too Many Requests", some 777⟩ (0 : Nat)
      5000).1 (Or.inr rfl)).2,
   ((C7_rate_limit_classification ⟨500, "Server Error", none⟩ (0 : Nat) 5000).2
      (by decide) (by decide)).1⟩

/-- Claim C9. README retrieval tries the candidates in the order initial
branch, then `master`, then `main` (duplicates removed keeping that
preference order) and returns the first successful fetch with the
branch it succeeded on: a success on the initial branch is returned
with that branch; if the initial branch fails and `master` succeeds,
the result carries the branch tag `"master"`; if the initial branch and
`master` both fail and `main` succeeds, the result carries `"main"`;
and when every candidate fails the result is `none` rather than an
error. -/
theorem C9_fetchReadme_fallback (initialBranch : String)
    (fetchB : String → Option String) (c : String) :
    (fetchB initialBranch = some c →
      fetchReadme initialBranch fetchB = some (c, initialBranch))
    ∧ (fetchB initialBranch = none → fetchB "master" = some c →
      fetchReadme initialBranch fetchB = some (c, "master"))
    ∧ (fetchB initialBranch = none → fetchB "master" = none →
        fetchB "main" = some c →
      fetchReadme initialBranch fetchB = some (c, "main"))
    ∧ (fetchB initialBranch = none → fetchB "master" = none →
        fetchB "main" = none →
      fetchReadme initialBranch fetchB = none) := by
  by_cases h1 : initialBranch = "master" <;> by_cases h2 : initialBranch = "main"
  · exact absurd (h1 ▸ h2) (by decide)
  · subst h1
    refine ⟨?_, ?_, ?_, ?_⟩ <;> intros <;>
      simp_all [fetchReadme, dedupKeepFirst, tryBranches]
  · subst h2
    refine ⟨?_, ?_, ?_, ?_⟩ <;> intros <;>
      simp_all [fetchReadme, dedupKeepFirst, tryBranches]
  · have h1s : ¬ ("master" = initialBranch) := fun h => h1 h.symm
    have h2s : ¬ ("main" = initialBranch) := fun h => h2 h.symm
    refine ⟨?_, ?_, ?_, ?_⟩ <;> intros <;>
      simp_all [fetchReadme, dedupKeepFirst, tryBranches]

/-- Witness for C9: with the declared branch `main` failing and `master`
succeeding, the returned branch tag is `"master"`; and with a declared
branch `develop` failing along with `master`, a success on the final
candidate `main` is returned with the branch tag `"main"`. -/
theorem C9_fetchReadme_fallback_witness :
    fetchReadme "main" (fun b => if b = "master" then some "readme body" else none)
      = some ("readme body", "master")
    ∧ fetchReadme "develop"
        (fun b => if b = "main" then some "main body" else none)
      = some ("main body", "main") :=
  ⟨(C9_fetchReadme_fallback "main"
      (fun b => if b = "master" then some "readme body" else none)
      "readme body").2.1 (by decide) (by decide),
   (C9_fetchReadme_fallback "develop"
      (fun b => if b = "main" then some "main body" else none)
      "main body").2.2.1 (by decide) (by decide) (by decide)⟩

/-- Claim C10. The countdown shows the fixed ready label whenever
`target * 1000 - now ≤ 0` (never a negative duration), otherwise the
zero-padded `hours:minutes:seconds` computed by the millisecond
remainder chain; in particular a target 3661 seconds ahead of `now = 0`
formats as `"01:01:01"`. -/
theorem C10_countdown_format (rateLimitReset nowMs : Nat) :
    ((rateLimitReset : Int) * 1000 - (nowMs : Int) ≤ 0 →
      updateTimer rateLimitReset nowMs = "Ready to brew!")
    ∧ (∀ d : Nat, (rateLimitReset : Int) * 1000 - (nowMs : Int) = (d : Int) →
        0 < d →
      updateTimer rateLimitReset nowMs
        = pad2 (d / 3600000) ++ ":" ++ pad2 (d % 3600000 / 60000) ++ ":"
            ++ pad2 (d % 60000 / 1000))
    ∧ updateTimer 3661 0 = "01:01:01" := by
  refine ⟨?_, ?_, by decide⟩
  · intro h
    simp only [updateTimer]
    rw [if_pos h]
  · intro d hd hpos
    simp only [updateTimer]
    rw [if_neg (by omega), hd]
    norm_num

/-- Witness for C10: a target already reached shows the ready label, and
the 3661-second example formats as `"01:01:01"` (obtained through the
remainder-chain clause at `d = 3661000`). -/
theorem C10_countdown_format_witness :
    updateTimer 0 1000 = "Ready to brew!"
    ∧ updateTimer 3661 0
        = pad2 (3661000 / 3600000) ++ ":" ++ pad2 (3661000 % 3600000 / 60000)
            ++ ":" ++ pad2 (3661000 % 60000 / 1000)
    ∧ updateTimer 3661 0 = "01:01:01" :=
  ⟨(C10_countdown_format 0 1000).1 (by decide),
   (C10_countdown_format 3661 0).2.1 3661000 (by decide) (by decide),
   (C10_countdown_format 3661 0).2.2⟩

/-- Claim C3. `analyzeRepo` realizes the claimed classifier: its tier
label is the one selected from the five ascending thresholds applied to
`score = 3*stars + 2*forks` plus the two `+5` bonuses, its description
is the tier pool entry at index `repoId mod poolSize`, and each pool has
size 3. -/
theorem C3_classifier (repo : GitHubRepo) :
    analyzeRepo repo
      = (claimRoast (claimScore repo),
        (claimPool (claimScore repo) (repo.language.getD "Unknown")).getD
          (repo.id
            % (claimPool (claimScore repo) (repo.language.getD "Unknown")).length)
          "")
    ∧ (claimPool (claimScore repo) (repo.language.getD "Unknown")).length = 3 := by
  simp only [analyzeRepo, claimRoast, claimPool, claimScore, claimTier]
  by_cases hd : longDescription repo <;> by_cases ht : hasTopics repo <;>
    simp only [hd, ht, Bool.not_eq_true, if_true, if_false, ite_true, ite_false,
      Bool.false_eq_true] <;>
    split_ifs <;>
    first
      | (refine ⟨rfl, rfl⟩)
      | omega

/-- The `n`-iteration bar generator always yields `n` bars. -/
theorem activityBarsAux_length (n seed : Nat) :
    (activityBarsAux n seed).length = n := by
  induction n generalizing seed with
  | zero => rfl
  | succ n ih => simp [activityBarsAux, ih]

/-- Claim C6 (amended). The decoration itself is deterministic: the bar
chart is a pure function of the repository id producing exactly 14 bars,
and the `analyzeRepo` template choice is `repoId mod poolSize` (see
`C3_classifier`). Repositories mapped from the third-party pinned proxy
get the stable synthetic id `999000 + index`, so two aggregation passes
(differing only in their capture instant `nowIso`) decorate them
identically. For GraphQL-sourced pinned repositories, however, the id is
a fresh `Math.random()` draw each pass, so the original claim's "the
seeding id is stable" part fails (see the counterexample). -/
theorem C6_deterministic_decoration (nowIso nowIso2 : String) (index : Nat)
    (pin : PinProxyItem) (rnd : Nat) (node : PinnedNode) (repoId : Nat) :
    (mapPinProxy nowIso index pin).id = 999000 + index
    ∧ (activityBars repoId).length = 14
    ∧ activityBars (mapPinProxy nowIso index pin).id
        = activityBars (mapPinProxy nowIso2 index pin).id
    ∧ analyzeRepo (mapPinProxy nowIso index pin)
        = analyzeRepo (mapPinProxy nowIso2 index pin)
    ∧ (mapPinnedNode rnd nowIso node).id = rnd := by
  refine ⟨rfl, activityBarsAux_length 14 repoId, rfl, ?_, rfl⟩
  simp [analyzeRepo, mapPinProxy, longDescription, hasTopics]

/-- Counterexample to C6 as stated: the same GraphQL pinned node mapped in
two aggregation passes whose `Math.random()` draws differ (here 1 and 2)
receives different ids, different activity bars, and a different
deterministic description - the seeding id of a GraphQL-sourced pinned
repository is not stable across passes. -/
theorem C6_counterexample :
    (mapPinnedNode 1 "2024-01-01" sampleNode).id
        ≠ (mapPinnedNode 2 "2024-01-01" sampleNode).id
    ∧ activityBars (mapPinnedNode 1 "2024-01-01" sampleNode).id
        ≠ activityBars (mapPinnedNode 2 "2024-01-01" sampleNode).id
    ∧ analyzeRepo (mapPinnedNode 1 "2024-01-01" sampleNode)
        ≠ analyzeRepo (mapPinnedNode 2 "2024-01-01" sampleNode) := by
  refine ⟨by decide, by decide, ?_⟩
  decide

/-- Claim C2. Snapshot persistence is atomic: whenever the `v4`
`getPortfolioData` fails - in particular when the profile fetch yields
no user or any required fetch is rate-limited - the cache slot is left
exactly as it was; and whenever the slot is changed at all, the call
succeeded and the persisted value is the complete snapshot assembled
from that single pass (user, repos, pinned, followers, tags and stats
all from the pass inputs), stamped with the pass time. -/
theorem C2_snapshot_atomicity (forceRefresh : Bool) (slot : CacheSlot PortfolioV4)
    (userResp : Except Nat (Option GitHubUser))
    (reposResp : Except Nat (Option (List GitHubRepo)))
    (followersResp : Except Nat (Option (List GitHubUser)))
    (pinned : List GitHubRepo) (tagsFor : String → Option String)
    (parseDate : String → Int) (nowMs : Nat) :
    (∀ e, (getPortfolioData_v4 forceRefresh slot userResp reposResp followersResp
        pinned tagsFor parseDate nowMs).1 = .error e →
      (getPortfolioData_v4 forceRefresh slot userResp reposResp followersResp
        pinned tagsFor parseDate nowMs).2 = slot)
    ∧ ((getPortfolioData_v4 forceRefresh slot userResp reposResp followersResp
        pinned tagsFor parseDate nowMs).2 ≠ slot →
      ∃ u rd fd, userResp = .ok (some u) ∧ reposResp = .ok rd
        ∧ followersResp = .ok fd
        ∧ getPortfolioData_v4 forceRefresh slot userResp reposResp followersResp
            pinned tagsFor parseDate nowMs
          = (.ok (assembleV4 u (rd.getD []) (fd.getD []) pinned tagsFor
              parseDate nowMs, nowMs),
             setCache (assembleV4 u (rd.getD []) (fd.getD []) pinned tagsFor
              parseDate nowMs) nowMs)) := by
  rcases hc : (if forceRefresh then none else getCache_v4 nowMs slot) with _ | c
  · rcases userResp with r | ud
    · constructor
      · intro e _
        simp [getPortfolioData_v4, hc]
      · intro h
        exact absurd (by simp [getPortfolioData_v4, hc]) h
    · rcases reposResp with r | rd
      · constructor
        · intro e _
          simp [getPortfolioData_v4, hc]
        · intro h
          exact absurd (by simp [getPortfolioData_v4, hc]) h
      · rcases followersResp with r | fd
        · constructor
          · intro e _
            simp [getPortfolioData_v4, hc]
          · intro h
            exact absurd (by simp [getPortfolioData_v4, hc]) h
        · rcases ud with _ | u
          · constructor
            · intro e _
              simp [getPortfolioData_v4, hc]
            · intro h
              exact absurd (by simp [getPortfolioData_v4, hc]) h
          · constructor
            · intro e he
              simp [getPortfolioData_v4, hc] at he
            · intro _
              exact ⟨u, rd, fd, rfl, rfl, rfl, by simp [getPortfolioData_v4, hc]⟩
  · constructor
    · intro e he
      simp [getPortfolioData_v4, hc] at he
    · intro h
      exact absurd (by simp [getPortfolioData_v4, hc]) h

/-- Witness for C2: a pass whose profile fetch yields no user errors out
and leaves a pre-existing (expired) slot byte-for-byte unchanged. -/
theorem C2_snapshot_atomicity_witness :
    (getPortfolioData_v4 true (setCache sampleV4 0) (.ok none) (.ok none)
        (.ok none) [] (fun _ => none) (fun _ => 0) 9999999).2
      = setCache sampleV4 0 :=
  (C2_snapshot_atomicity true (setCache sampleV4 0) (.ok none) (.ok none)
      (.ok none) [] (fun _ => none) (fun _ => 0) 9999999).1
    .userFetchFailed (by rfl)

/-- Claim C8. In a `v4` aggregation pass that actually runs (the
fresh-cache check misses), with the profile fetch succeeding and the
GraphQL pinned fetch failing or yielding no items (so
`fetchPinnedReposGraphQL` produced `[]`), the snapshot's pinned list is
the first 6 entries of the general repository list stably sorted by star
count descending - hence all entries when fewer than 6 exist. -/
theorem C8_pinned_fallback_top6 (forceRefresh : Bool)
    (slot : CacheSlot PortfolioV4) (u : GitHubUser)
    (userResp : Except Nat (Option GitHubUser))
    (rd : Option (List GitHubRepo)) (fd : Option (List GitHubUser))
    (gresp : Except Nat (Option (List PinnedNode))) (draw : Nat → Nat)
    (nowIso : String) (tagsFor : String → Option String)
    (parseDate : String → Int) (nowMs : Nat)
    (hmiss : (if forceRefresh then none else getCache_v4 nowMs slot) = none)
    (hu : userResp = .ok (some u))
    (hg : fetchPinnedReposGraphQL gresp draw nowIso = []) :
    ∃ d, getPortfolioData_v4 forceRefresh slot userResp (.ok rd) (.ok fd)
          (fetchPinnedReposGraphQL gresp draw nowIso) tagsFor parseDate nowMs
        = (.ok (d, nowMs), setCache d nowMs)
      ∧ d.pinnedRepos = (sortByStarsDesc (rd.getD [])).take 6
      ∧ ((rd.getD []).length ≤ 6 → d.pinnedRepos = sortByStarsDesc (rd.getD [])) := by
  subst hu
  refine ⟨assembleV4 u (rd.getD []) (fd.getD [])
    (fetchPinnedReposGraphQL gresp draw nowIso) tagsFor parseDate nowMs,
    by simp [getPortfolioData_v4, hmiss], ?_, ?_⟩
  · simp [assembleV4, hg]
  · intro hlen
    have hslen : (sortByStarsDesc (rd.getD [])).length = (rd.getD []).length := by
      simp [sortByStarsDesc, stableSortBy]
      induction (rd.getD []) with
      | nil => rfl
      | cons x xs ih =>
        simp only [List.foldr_cons, List.length_cons, ← ih]
        generalize (List.foldr _ _ xs) = l
        induction l with
        | nil => rfl
        | cons y ys ihy =>
          simp only [orderedInsertBy]
          split
          · simp
          · simpa using ihy
    simp [assembleV4, hg, List.take_of_length_le (by omega : 6 ≥ (sortByStarsDesc (rd.getD [])).length)]

/-- Witness for C8: with two repositories (9 and 3 stars, listed in the
opposite order) and a rate-limited GraphQL pinned fetch, the persisted
pinned list is the star-sorted pair. -/
theorem C8_pinned_fallback_top6_witness :
    ∃ d, getPortfolioData_v4 true none (.ok (some sampleUser))
          (.ok (some [sampleRepo, sampleRepo2])) (.ok (some [sampleUser]))
          (fetchPinnedReposGraphQL (.error 42) (fun _ => 0) "2024-01-01")
          (fun _ => none) (fun _ => 0) 0
        = (.ok (d, 0), setCache d 0)
      ∧ d.pinnedRepos
          = (sortByStarsDesc ((some [sampleRepo, sampleRepo2]).getD [])).take 6
      ∧ (((some [sampleRepo, sampleRepo2] : Option (List GitHubRepo)).getD
            []).length ≤ 6 →
          d.pinnedRepos = sortByStarsDesc ((some [sampleRepo, sampleRepo2]).getD [])) :=
  C8_pinned_fallback_top6 true none sampleUser (.ok (some sampleUser))
    (some [sampleRepo, sampleRepo2]) (some [sampleUser]) (.error 42) (fun _ => 0)
    "2024-01-01" (fun _ => none) (fun _ => 0) 0 rfl rfl rfl
